import Mathlib

/-!
Shallow embedding of the `UserAuthDataService` of ocariot/da-agent
(`src/application/service/user.auth.data.service.ts`), together with the
data model it manipulates and the interface boundary of its external
collaborators (persistence store, message-bus backed provider client,
user directory), as fixed by the specification.

Conventions of the embedding:
- TypeScript optional fields become `Option`; the TS non-null assertion
  `x!` performs no runtime check, so dereferencing an absent object is
  modelled by the `ServiceError.typeError` outcome, while merely passing
  a possibly-undefined value to a collaborator passes the `Option` along.
- `Promise` rejection becomes `Except ServiceError`.
- Every invocation of an external collaborator is recorded in a trace
  (`List Call`), so that claims counting subscription calls, store
  writes, revoke calls or sync triggers can be stated directly.
- JavaScript truthiness on strings/numbers (empty string and zero are
  falsy) is modelled by `truthyS` / `truthyN`.
- `String.prototype.split(' ')` and `indexOf('rpc') !== -1` are modelled
  by the character-level functions `splitSpace` and `containsRpc`.
-/

/-- Provider credential sub-structure (`FitbitAuthData` domain model,
field shape as in `src/infrastructure/entity/fitbit.auth.data.entity.ts`
plus the `status` / `last_sync` fields used by the service). -/
structure FitbitAuthData where
  user_id : Option String := none
  access_token : Option String := none
  expires_in : Option Nat := none
  refresh_token : Option String := none
  scope : Option String := none
  token_type : Option String := none
  status : Option String := none
  last_sync : Option String := none
deriving Repr, DecidableEq

/-- Credential Record (`UserAuthData` domain model): internal user id plus
the provider credential sub-structure. `id` is the persistence identity. -/
structure UserAuthData where
  id : Option Nat := none
  user_id : Option String := none
  fitbit : Option FitbitAuthData := none
deriving Repr, DecidableEq

/-- Introspection payload returned by `getTokenPayload` (claims `sub`,
`scopes`, `exp` are the ones the service reads). -/
structure TokenPayload where
  sub : Option String := none
  scopes : Option String := none
  exp : Option Nat := none
deriving Repr, DecidableEq

/-- Result of a data synchronization, opaque to the service. -/
structure DataSync where
  synced : Nat := 0
deriving Repr, DecidableEq

/-- Errors surfaced by the service.  `validation` is the code's
`ValidationException` (the spec's ValidationError / InsufficientScope /
MissingCredential, depending on the message), `eventBus` is
`EventBusException`, `repo` is a failure propagated from an external
collaborator, and `typeError` is the JavaScript `TypeError` raised by
dereferencing an absent object through a TS non-null assertion. -/
inductive ServiceError where
  | validation (message : String) (description : Option String)
  | eventBus (message : String) (description : String)
  | repo (message : String)
  | typeError
deriving Repr, DecidableEq

/-- Trace entry: one invocation of an external collaborator. -/
inductive Call where
  | getTokenPayload (token : Option String)
  | subscribe (cred : FitbitAuthData) (category : String) (label : String)
  | checkUserExists (uid : Option String)
  | create (record : UserAuthData)
  | update (record : UserAuthData)
  | revokeToken (token : Option String)
  | syncUserData (cred : FitbitAuthData) (lastSync : Option String)
      (maxAttempts : Nat) (uid : Option String)
  | publishLastSync (uid : Option String) (lastSync : String)
deriving Repr, DecidableEq

/-- Modelled from the spec: the Credential Store state (the persistence
implementation is outside `src/`; section 4.4 of the spec fixes its
contract: query by internal user id, `create`, `update` keyed by record
identity).  `nextId` is the fresh identity counter used by `create`. -/
structure CredentialStore where
  records : List UserAuthData := []
  nextId : Nat := 0
deriving Repr, DecidableEq

/-- JavaScript truthiness of a possibly-undefined string: `undefined` and
the empty string are falsy. -/
def truthyS : Option String → Bool
  | none => false
  | some s => !(s = "")

/-- JavaScript truthiness of a possibly-undefined number: `undefined` and
`0` are falsy. -/
def truthyN : Option Nat → Bool
  | none => false
  | some n => !(n = 0)

/-- JavaScript template-string rendering of a possibly-undefined value. -/
def optStr : Option String → String
  | none => "undefined"
  | some s => s

def splitSpaceAux : List Char → List Char → List String
  | [], acc => [String.mk acc.reverse]
  | c :: rest, acc =>
    if c = ' ' then String.mk acc.reverse :: splitSpaceAux rest []
    else splitSpaceAux rest (c :: acc)

/-- `String.prototype.split(' ')`: split on single space characters. -/
def splitSpace (s : String) : List String := splitSpaceAux s.data []

def hasRpc : List Char → Bool
  | 'r' :: 'p' :: 'c' :: _ => true
  | _ :: rest => hasRpc rest
  | [] => false

/-- `message.indexOf('rpc') !== -1`: the message contains `rpc`. -/
def containsRpc (s : String) : Bool := hasRpc s.data

/-- `err.message` of a surfaced error (the message the catch block of
`add` inspects).  A JavaScript `TypeError` from an undefined dereference
carries the standard runtime message. -/
def errMessage : ServiceError → String
  | .validation m _ => m
  | .eventBus m _ => m
  | .repo m => m
  | .typeError => "Cannot read properties of undefined"

def scopeErrMsg : String :=
  "The token must have permission for at least one of the features that are synced by the API."

def scopeErrDetail : String :=
  "The features that are mapped are: rwei (weight), ract (activity), rsle (sleep)."

def busErrMsg : String :=
  "Communication with the message bus cannot be performed."

def busErrDetail : String :=
  "Probably, the message service is unavailable."

def syncMissingMsg : String :=
  "User does not have authentication data. Please, submit authentication data and try again."

/-- Modelled from the spec: message of the id-format rejection raised by
`ObjectIdValidator` (its source is outside `src/`; the spec only states
that RevokeCredential validates the id format). -/
def invalidIdFormatMsg : String :=
  "Some ID provided does not have a valid format!"

def userNotRegisteredMsg (uid : Option String) : String :=
  "The user does not have register on platform: " ++ optStr uid

/-- External collaborators at their interface boundary (spec section 6):
the Fitbit repository backed by provider API and message bus, and the
user-directory check of the auth-data repository.  `validObjectId` is
modelled from the spec: the id-format predicate of `ObjectIdValidator`,
whose source is outside `src/`. -/
structure Deps where
  getTokenPayload : Option String → Except String TokenPayload
  subscribeUserEvent : FitbitAuthData → String → String → Except String Unit
  checkUserExists : Option String → Except String Bool
  revokeToken : Option String → Except String Bool
  syncUserData : FitbitAuthData → Option String → Nat → Option String → Except String DataSync
  publishLastSync : Option String → String → Except String Unit
  validObjectId : String → Bool

/-- Modelled from the spec: `CreateUserAuthDataValidator.validate` (its
source is outside `src/`; the spec says step 1 of LinkCredential
validates the required shape of the input record: an internal user id
and a provider credential carrying the access token to introspect). -/
def validateCreate (item : UserAuthData) : Except ServiceError Unit :=
  match item.user_id, item.fitbit with
  | some _, some f =>
    match f.access_token with
    | some _ => .ok ()
    | none => .error (.validation "Required fields were not provided!" (some "fitbit.access_token"))
  | _, _ => .error (.validation "Required fields were not provided!" (some "user_id, fitbit"))

/-- Modelled from the spec: Credential Store lookup by internal user id
(`findOne` with filter `user_id`). -/
def findOneByUserId (store : CredentialStore) (uid : Option String) : Option UserAuthData :=
  store.records.find? (fun q => decide (q.user_id = uid))

/-- Merge of the introspection payload into the provider credential:
`if (payload.sub) ...; if (payload.scopes) ...; if (payload.exp) ...;`
followed by the unconditional `token_type = 'Bearer'`
(lines 163-166 of the service). -/
def mergePayload (f : FitbitAuthData) (p : TokenPayload) : FitbitAuthData :=
  let f1 := if truthyS p.sub then { f with user_id := p.sub } else f
  let f2 := if truthyS p.scopes then { f1 with scope := p.scopes } else f1
  let f3 := if truthyN p.exp then { f2 with expires_in := p.exp } else f2
  { f3 with token_type := some "Bearer" }

namespace UserAuthDataService

/-- `manageFitbitAuthData` (lines 160-171): introspect the access token
and merge the extracted claims into the record. -/
def manageFitbitAuthData (env : Deps) (data : UserAuthData) :
    Except ServiceError UserAuthData × List Call :=
  match data.fitbit with
  | none => (.error .typeError, [])
  | some f =>
    match env.getTokenPayload f.access_token with
    | .error m => (.error (.repo m), [.getTokenPayload f.access_token])
    | .ok p =>
      (.ok { data with fitbit := some (mergePayload f p) }, [.getTokenPayload f.access_token])

/-- Third conditional subscription of `subscribeFitbitEvents`
(lines 152-154): sleep events when `rsle` is granted. -/
def subscribeSleep (env : Deps) (f : FitbitAuthData) (scopes : List String) :
    Except ServiceError Unit × List Call :=
  if scopes.contains "rsle" then
    match env.subscribeUserEvent f "sleep" "SLEEP" with
    | .error m => (.error (.repo m), [.subscribe f "sleep" "SLEEP"])
    | .ok _ => (.ok (), [.subscribe f "sleep" "SLEEP"])
  else (.ok (), [])

/-- Second conditional subscription of `subscribeFitbitEvents`
(lines 149-151): activity events when `ract` is granted; a failure
aborts the remaining subscription. -/
def subscribeActivities (env : Deps) (f : FitbitAuthData) (scopes : List String) :
    Except ServiceError Unit × List Call :=
  if scopes.contains "ract" then
    match env.subscribeUserEvent f "activities" "ACTIVITIES" with
    | .error m => (.error (.repo m), [.subscribe f "activities" "ACTIVITIES"])
    | .ok _ =>
      match subscribeSleep env f scopes with
      | (r, l) => (r, .subscribe f "activities" "ACTIVITIES" :: l)
  else subscribeSleep env f scopes

/-- First conditional subscription of `subscribeFitbitEvents`
(lines 146-148): body events when `rwei` is granted; a failure aborts
the remaining subscriptions. -/
def subscribeBody (env : Deps) (f : FitbitAuthData) (scopes : List String) :
    Except ServiceError Unit × List Call :=
  if scopes.contains "rwei" then
    match env.subscribeUserEvent f "body" "BODY" with
    | .error m => (.error (.repo m), [.subscribe f "body" "BODY"])
    | .ok _ =>
      match subscribeActivities env f scopes with
      | (r, l) => (r, .subscribe f "body" "BODY" :: l)
  else subscribeActivities env f scopes

/-- `subscribeFitbitEvents` (lines 137-158): split the granted scope on
spaces, reject (gate at line 140) unless `rwei`, `ract` and `rsle` are
all present, then subscribe per granted scope. -/
def subscribeFitbitEvents (env : Deps) (data : UserAuthData) :
    Except ServiceError Unit × List Call :=
  match data.fitbit with
  | none => (.error .typeError, [])
  | some f =>
    match f.scope with
    | none => (.error .typeError, [])
    | some sc =>
      let scopes := splitSpace sc
      if !(scopes.contains "rwei") || !(scopes.contains "ract") || !(scopes.contains "rsle") then
        (.error (.validation scopeErrMsg (some scopeErrDetail)), [])
      else
        subscribeBody env f scopes

/-- Lines 28-31 of `add`: validate the input shape, introspect and merge
the token payload, set `status` to `valid_token`, register the
subscriptions.  The TypeScript code mutates one shared record object, so
the record passed to `subscribeFitbitEvents` is the introspected one. -/
def prepare (env : Deps) (item : UserAuthData) :
    Except ServiceError UserAuthData × List Call :=
  match validateCreate item with
  | .error e => (.error e, [])
  | .ok _ =>
    match manageFitbitAuthData env item with
    | (.error e, l) => (.error e, l)
    | (.ok newItem, l) =>
      match newItem.fitbit with
      | none => (.error .typeError, l)
      | some f =>
        let ni := { newItem with fitbit := some { f with status := some "valid_token" } }
        match subscribeFitbitEvents env ni with
        | (.error e, l2) => (.error e, l ++ l2)
        | (.ok _, l2) => (.ok ni, l ++ l2)

/-- Lines 32-42 of `add`: directory-existence gate, then upsert — update
preserving the already-saved identity when a record for the internal
user id exists, create otherwise.  The store semantics (`findOne`,
`create`, `update`) are modelled from the spec contract in section 4.4. -/
def persist (env : Deps) (store : CredentialStore) (ni : UserAuthData) :
    Except ServiceError UserAuthData × CredentialStore × List Call :=
  match env.checkUserExists ni.user_id with
  | .error m => (.error (.repo m), store, [.checkUserExists ni.user_id])
  | .ok userFound =>
    if !userFound then
      (.error (.validation (userNotRegisteredMsg ni.user_id) none), store,
        [.checkUserExists ni.user_id])
    else
      match findOneByUserId store ni.user_id with
      | some alreadySaved =>
        let upd := { ni with id := alreadySaved.id }
        (.ok upd,
          { store with records := store.records.map (fun q => if decide (q.id = upd.id) then upd else q) },
          [.checkUserExists ni.user_id, .update upd])
      | none =>
        let created := { ni with id := some store.nextId }
        (.ok created,
          { records := store.records ++ [created], nextId := store.nextId + 1 },
          [.checkUserExists ni.user_id, .create created])

/-- Body of the `try` block of `add` (lines 27-42). -/
def addBody (env : Deps) (store : CredentialStore) (item : UserAuthData) :
    Except ServiceError UserAuthData × CredentialStore × List Call :=
  match prepare env item with
  | (.error e, l) => (.error e, store, l)
  | (.ok ni, l) =>
    match persist env store ni with
    | (r, s, l2) => (r, s, l ++ l2)

/-- `add` (lines 26-51): the try body plus the catch block that
reclassifies any error whose message contains `rpc` as an
`EventBusException`. -/
def add (env : Deps) (store : CredentialStore) (item : UserAuthData) :
    Except ServiceError UserAuthData × CredentialStore × List Call :=
  match addBody env store item with
  | (.error e, s, l) =>
    if containsRpc (errMessage e) then
      (.error (.eventBus busErrMsg busErrDetail), s, l)
    else (.error e, s, l)
  | (.ok v, s, l) => (.ok v, s, l)

/-- `addFitbitAuthData` (lines 69-83): run `add`; when `initSync` is not
the string `false`, fire-and-forget a sync with 3 max attempts (its
outcome is not awaited and never propagated); when `initSync` is
`false` and the result carries a truthy `last_sync`, publish that
timestamp instead. -/
def addFitbitAuthData (env : Deps) (store : CredentialStore) (data : UserAuthData)
    (initSync : String) :
    Except ServiceError UserAuthData × CredentialStore × List Call :=
  match add env store data with
  | (.error e, s, l) => (.error e, s, l)
  | (.ok result, s, l) =>
    match result.fitbit with
    | none => (.error .typeError, s, l)
    | some f =>
      if !(initSync = "false") then
        (.ok result, s, l ++ [Call.syncUserData f f.last_sync 3 result.user_id])
      else if initSync = "false" && truthyS f.last_sync then
        match f.last_sync with
        | some ls => (.ok result, s, l ++ [Call.publishLastSync result.user_id ls])
        | none => (.ok result, s, l)
      else (.ok result, s, l)

/-- `revokeFitbitAccessToken` (lines 85-95): validate the id format, look
the record up; when found, revoke the stored access token at the
provider (the provider credential is dereferenced through a non-null
assertion, without a guard) and return `true`; when absent return
`false` without any revoke call. -/
def revokeFitbitAccessToken (env : Deps) (store : CredentialStore) (userId : String) :
    Except ServiceError Bool × List Call :=
  if env.validObjectId userId then
    match findOneByUserId store (some userId) with
    | none => (.ok false, [])
    | some authData =>
      match authData.fitbit with
      | none => (.error .typeError, [])
      | some f =>
        match env.revokeToken f.access_token with
        | .error m => (.error (.repo m), [.revokeToken f.access_token])
        | .ok _ => (.ok true, [.revokeToken f.access_token])
  else (.error (.validation invalidIdFormatMsg none), [])

/-- `syncFitbitUserData` (lines 97-109): look the record up; when absent
or lacking the provider credential, fail with the missing-credential
rejection; otherwise trigger a single-attempt sync and return its
result directly. -/
def syncFitbitUserData (env : Deps) (store : CredentialStore) (userId : String) :
    Except ServiceError DataSync × List Call :=
  match findOneByUserId store (some userId) with
  | none => (.error (.validation syncMissingMsg none), [])
  | some authData =>
    match authData.fitbit with
    | none => (.error (.validation syncMissingMsg none), [])
    | some f =>
      match env.syncUserData f f.last_sync 1 (some userId) with
      | .error m => (.error (.repo m), [Call.syncUserData f f.last_sync 1 (some userId)])
      | .ok ds => (.ok ds, [Call.syncUserData f f.last_sync 1 (some userId)])

end UserAuthDataService

/-- Trace entry is a subscription-registration call. -/
def isSubscribeCall : Call → Bool
  | .subscribe _ _ _ => true
  | _ => false

/-- Trace entry is a Credential Store write (`create` or `update`). -/
def isWriteCall : Call → Bool
  | .create _ => true
  | .update _ => true
  | _ => false

/-- Trace entry is a provider revoke call. -/
def isRevokeCall : Call → Bool
  | .revokeToken _ => true
  | _ => false

/-- Trace entry is a sync trigger. -/
def isTriggerSyncCall : Call → Bool
  | .syncUserData _ _ _ _ => true
  | _ => false

/-- Trace entry is a `publishLastSync` call. -/
def isPublishCall : Call → Bool
  | .publishLastSync _ _ => true
  | _ => false

/-- Trace entry belongs to the linking pipeline (`add`): introspection,
subscription, directory check or store write — never a sync trigger,
last-sync publication or revoke call. -/
def isLinkCall : Call → Bool
  | .getTokenPayload _ => true
  | .subscribe _ _ _ => true
  | .checkUserExists _ => true
  | .create _ => true
  | .update _ => true
  | _ => false

/-! Concrete collaborators and inputs used by the closed theorems and the
witnesses below. -/

/-- Happy-path collaborators: introspection extracts subject `p1` and
keeps the granted scope, every subscription and directory check
succeeds. -/
def env1 : Deps :=
  { getTokenPayload := fun _ => .ok { sub := some "p1" }
    subscribeUserEvent := fun _ _ _ => .ok ()
    checkUserExists := fun _ => .ok true
    revokeToken := fun _ => .ok true
    syncUserData := fun _ _ _ _ => .ok {}
    publishLastSync := fun _ _ => .ok ()
    validObjectId := fun _ => true }

/-- Empty Credential Store. -/
def store0 : CredentialStore := {}

/-- Valid record whose granted scope contains exactly one recognized
token (`rwei`). -/
def item1 : UserAuthData :=
  { user_id := some "5ca790f77aefffa37a17b605"
    fitbit := some { access_token := some "tokA", scope := some "rwei" } }

/-- Provider credential whose granted scope contains no recognized
token. -/
def fit2w : FitbitAuthData :=
  { access_token := some "tokA", scope := some "nutrition profile" }

/-- Record whose granted scope contains no recognized token. -/
def item2w : UserAuthData :=
  { user_id := some "5ca790f77aefffa37a17b605", fitbit := some fit2w }

/-- Valid record granting all three recognized scopes. -/
def item3 : UserAuthData :=
  { user_id := some "5ca790f77aefffa37a17b605"
    fitbit := some { access_token := some "tokA", scope := some "rwei ract rsle" } }

/-- Collaborators whose message-bus backed subscription registration
fails with a transport error whose message does not contain `rpc`. -/
def env3 : Deps :=
  { env1 with subscribeUserEvent := fun _ _ _ => .error "connect ECONNREFUSED 127.0.0.1:5672" }

/-- Record granting all three scopes whose internal user id contains the
substring `rpc`. -/
def item6 : UserAuthData :=
  { user_id := some "rpc000000000000000000000"
    fitbit := some { access_token := some "tokA", scope := some "rwei ract rsle" } }

/-- Collaborators whose user directory reports every id as non-existent
(introspection and subscription registration succeed). -/
def env6 : Deps := { env1 with checkUserExists := fun _ => .ok false }

/-- Valid record granting all three scopes, carrying a present but empty
`last_sync` timestamp. -/
def item4 : UserAuthData :=
  { user_id := some "5ca790f77aefffa37a17b605"
    fitbit := some { access_token := some "tokA", scope := some "rwei ract rsle"
                     last_sync := some "" } }

/-- Record stored by the successful link of `item4` (introspection under
`env1` fills subject `p1`, sets the bearer token type and the
`valid_token` status; the store assigns identity `0`). -/
def rec4 : UserAuthData :=
  { id := some 0
    user_id := some "5ca790f77aefffa37a17b605"
    fitbit := some { user_id := some "p1", access_token := some "tokA"
                     scope := some "rwei ract rsle", token_type := some "Bearer"
                     status := some "valid_token", last_sync := some "" } }

/-- First link request of the idempotence scenario (token `tokA`). -/
def item5a : UserAuthData :=
  { user_id := some "5ca790f77aefffa37a17b605"
    fitbit := some { access_token := some "tokA", scope := some "rwei ract rsle" } }


/-- Collaborators whose introspection returns a payload carrying a
present but empty subject id. -/
def env9 : Deps := { env1 with getTokenPayload := fun _ => .ok { sub := some "" } }

/-- Record whose provider credential already carries subject id `OLD`. -/
def item9 : UserAuthData :=
  { user_id := some "u9"
    fitbit := some { user_id := some "OLD", access_token := some "tokA" } }

/-- Result of introspecting `item9` under `env9`: the present-but-empty
subject id of the payload does not overwrite the prior value. -/
def rec9 : UserAuthData :=
  { user_id := some "u9"
    fitbit := some { user_id := some "OLD", access_token := some "tokA"
                     token_type := some "Bearer" } }

/-- Store holding one record for user `u10` that lacks the provider
credential sub-structure. -/
def store10 : CredentialStore :=
  { records := [{ user_id := some "u10" }], nextId := 1 }

/-- Linked provider credential of user `u7`. -/
def fit7 : FitbitAuthData :=
  { access_token := some "tokC", last_sync := some "2019-01-01T00:00:00" }

/-- Fully linked record of user `u7`. -/
def rec7 : UserAuthData := { id := some 0, user_id := some "u7", fitbit := some fit7 }

/-- Store holding one fully linked record for user `u7`. -/
def store7 : CredentialStore := { records := [rec7], nextId := 1 }

/-- Provider credential of `item9` before introspection. -/
def fit9 : FitbitAuthData := { user_id := some "OLD", access_token := some "tokA" }

/-- Introspection payload returned by `env1`. -/
def pay1 : TokenPayload := { sub := some "p1" }

/-- Result of introspecting `item9` under `env1`: the truthy subject id
`p1` overwrites `OLD`, everything else is untouched, the token type is
set to bearer. -/
def r9w : UserAuthData :=
  { user_id := some "u9"
    fitbit := some { user_id := some "p1", access_token := some "tokA"
                     token_type := some "Bearer" } }

/-- Record granting all three scopes with a non-empty `last_sync`. -/
def item4w : UserAuthData :=
  { user_id := some "5ca790f77aefffa37a17b605"
    fitbit := some { access_token := some "tokA", scope := some "rwei ract rsle"
                     last_sync := some "2019-01-01T00:00:00" } }

/-- Provider credential stored by linking `item4w` under `env1`. -/
def fit4w : FitbitAuthData :=
  { user_id := some "p1", access_token := some "tokA", scope := some "rwei ract rsle"
    token_type := some "Bearer", status := some "valid_token"
    last_sync := some "2019-01-01T00:00:00" }

/-- Record stored by linking `item4w` under `env1`. -/
def r4w : UserAuthData :=
  { id := some 0, user_id := some "5ca790f77aefffa37a17b605", fitbit := some fit4w }

/-- Store after linking `item4w` into the empty store. -/
def s4w : CredentialStore := { records := [r4w], nextId := 1 }

/-- Collaborator trace of linking `item4w` under `env1`. -/
def l4w : List Call :=
  [.getTokenPayload (some "tokA"), .subscribe fit4w "body" "BODY",
   .subscribe fit4w "activities" "ACTIVITIES", .subscribe fit4w "sleep" "SLEEP",
   .checkUserExists (some "5ca790f77aefffa37a17b605"), .create r4w]

/-- Provider credential stored by the first link of the idempotence
scenario (token `tokA`). -/
def g5a : FitbitAuthData :=
  { user_id := some "p1", access_token := some "tokA", scope := some "rwei ract rsle"
    token_type := some "Bearer", status := some "valid_token" }

/-- Record stored by the first link of the idempotence scenario. -/
def r5a : UserAuthData :=
  { id := some 0, user_id := some "5ca790f77aefffa37a17b605", fitbit := some g5a }

/-- Store after the first link of the idempotence scenario. -/
def s5a : CredentialStore := { records := [r5a], nextId := 1 }

/-- Collaborator trace of the first link of the idempotence scenario. -/
def l5a : List Call :=
  [.getTokenPayload (some "tokA"), .subscribe g5a "body" "BODY",
   .subscribe g5a "activities" "ACTIVITIES", .subscribe g5a "sleep" "SLEEP",
   .checkUserExists (some "5ca790f77aefffa37a17b605"), .create r5a]

/-- Provider credential of the second link request (token `tokB`). -/
def fit5b : FitbitAuthData :=
  { access_token := some "tokB", scope := some "rwei ract rsle" }

/-- Second link request of the idempotence scenario (token `tokB`). -/
def item5b : UserAuthData :=
  { user_id := some "5ca790f77aefffa37a17b605", fitbit := some fit5b }

/-- Provider credential stored by the second link of the idempotence
scenario (token `tokB`). -/
def g5b : FitbitAuthData :=
  { user_id := some "p1", access_token := some "tokB", scope := some "rwei ract rsle"
    token_type := some "Bearer", status := some "valid_token" }

/-- Record stored by the second link of the idempotence scenario
(identity preserved from the first link). -/
def r5b : UserAuthData :=
  { id := some 0, user_id := some "5ca790f77aefffa37a17b605", fitbit := some g5b }

/-- Store after the second link of the idempotence scenario: still
exactly one record for the user, updated in place. -/
def s5b : CredentialStore := { records := [r5b], nextId := 1 }

/-- Collaborator trace of the second link of the idempotence scenario
(an update, not a create). -/
def l5b : List Call :=
  [.getTokenPayload (some "tokB"), .subscribe g5b "body" "BODY",
   .subscribe g5b "activities" "ACTIVITIES", .subscribe g5b "sleep" "SLEEP",
   .checkUserExists (some "5ca790f77aefffa37a17b605"), .update r5b]

/-! Claim theorems. -/

/-- C1: the claim says that a valid record granting exactly one
recognized scope token leads to exactly one subscription call and a
`valid_token` status.  The code's scope gate
(`!includes(rwei) || !includes(ract) || !includes(rsle)`) instead
rejects every record that does not grant all three tokens — despite its
own error message demanding only "at least one" feature — so the link
of `item1` (granted scope exactly `rwei`) fails with the
insufficient-scope rejection, makes zero subscription calls and writes
nothing. -/
theorem C1_one_scope_is_rejected :
    (UserAuthDataService.add env1 store0 item1).1 =
      .error (.validation scopeErrMsg (some scopeErrDetail)) ∧
    (UserAuthDataService.add env1 store0 item1).2.1 = store0 ∧
    ((UserAuthDataService.add env1 store0 item1).2.2).filter isSubscribeCall = [] ∧
    ((UserAuthDataService.add env1 store0 item1).2.2).filter isWriteCall = [] ∧
    (splitSpace "rwei").contains "rwei" = true ∧
    (splitSpace "rwei").contains "ract" = false ∧
    (splitSpace "rwei").contains "rsle" = false :=
  ⟨rfl, rfl, rfl, rfl, rfl, rfl, rfl⟩

/-- C3: the claim says every message-bus transport failure surfaced by
the subscription-registration step is reclassified as
`EventBusUnavailable`.  The code reclassifies only errors whose message
contains the substring `rpc`: the transport failure
`connect ECONNREFUSED 127.0.0.1:5672` raised by the first subscription
call of `item3` is propagated unreclassified. -/
theorem C3_transport_failure_not_reclassified :
    (UserAuthDataService.add env3 store0 item3).1 =
      .error (.repo "connect ECONNREFUSED 127.0.0.1:5672") ∧
    (UserAuthDataService.add env3 store0 item3).1 ≠
      .error (.eventBus busErrMsg busErrDetail) ∧
    ((UserAuthDataService.add env3 store0 item3).2.2).filter isSubscribeCall ≠ [] ∧
    containsRpc "connect ECONNREFUSED 127.0.0.1:5672" = false :=
  ⟨rfl, fun h => ServiceError.noConfusion (Except.error.inj h), by decide, rfl⟩

/-- C6: the claim says a record whose internal user id the directory
reports as non-existent fails with ValidationError and nothing is
persisted.  For the id `rpc000000000000000000000` the thrown
not-registered `ValidationException` message contains the substring
`rpc` (it interpolates the id), so the catch block of `add`
reclassifies it into an `EventBusException`; the zero-writes half of
the claim does hold. -/
theorem C6_directory_gate_misclassified_for_rpc_id :
    (UserAuthDataService.add env6 store0 item6).1 =
      .error (.eventBus busErrMsg busErrDetail) ∧
    (UserAuthDataService.add env6 store0 item6).1 ≠
      .error (.validation (userNotRegisteredMsg (some "rpc000000000000000000000")) none) ∧
    ((UserAuthDataService.add env6 store0 item6).2.2).filter isWriteCall = [] ∧
    (UserAuthDataService.add env6 store0 item6).2.1 = store0 ∧
    containsRpc (userNotRegisteredMsg (some "rpc000000000000000000000")) = true :=
  ⟨rfl, fun h => ServiceError.noConfusion (Except.error.inj h), rfl, rfl, rfl⟩

/-- C4 (counterexample): the claim says that for every falsy `initSync`
value with a `last_sync` present on the result, `publishLastSync` is
called with that timestamp.  With `initSync = "false"` and a present
but empty `last_sync` (`some ""`, falsy for the JavaScript truthiness
test the code uses), the link succeeds, yet neither `publishLastSync`
nor any sync trigger is called. -/
theorem C4_counterexample :
    (UserAuthDataService.addFitbitAuthData env1 store0 item4 "false").1 = .ok rec4 ∧
    rec4.fitbit.map FitbitAuthData.last_sync = some (some "") ∧
    ((UserAuthDataService.addFitbitAuthData env1 store0 item4 "false").2.2).filter isPublishCall = [] ∧
    ((UserAuthDataService.addFitbitAuthData env1 store0 item4 "false").2.2).filter isTriggerSyncCall = [] :=
  ⟨rfl, rfl, rfl, rfl⟩

/-- C9 (counterexample): the claim says exactly the fields present in
the introspection payload overwrite the record's provider fields.  The
payload of `env9` carries a present subject id (`some ""`), yet the
code's JavaScript truthiness test skips the overwrite: the prior
subject id `OLD` survives introspection. -/
theorem C9_counterexample :
    env9.getTokenPayload (some "tokA") = .ok { sub := some "" } ∧
    (UserAuthDataService.manageFitbitAuthData env9 item9).1 = .ok rec9 ∧
    rec9.fitbit.map FitbitAuthData.user_id = some (some "OLD") ∧
    (some "OLD" : Option String) ≠ some "" :=
  ⟨rfl, rfl, rfl, by decide⟩

/-- Field-wise description of the introspection merge: truthy payload
fields overwrite, the rest keep their prior value, and the token type
is unconditionally set to bearer. -/
theorem mergePayload_fields (f : FitbitAuthData) (p : TokenPayload) :
    (mergePayload f p).token_type = some "Bearer" ∧
    (mergePayload f p).access_token = f.access_token ∧
    (mergePayload f p).refresh_token = f.refresh_token ∧
    (mergePayload f p).status = f.status ∧
    (mergePayload f p).last_sync = f.last_sync ∧
    (mergePayload f p).user_id = (if truthyS p.sub then p.sub else f.user_id) ∧
    (mergePayload f p).scope = (if truthyS p.scopes then p.scopes else f.scope) ∧
    (mergePayload f p).expires_in = (if truthyN p.exp then p.exp else f.expires_in) := by
  by_cases h1 : truthyS p.sub <;> by_cases h2 : truthyS p.scopes <;>
    by_cases h3 : truthyN p.exp <;> simp [mergePayload, h1, h2, h3]

/-- The scope gate of `subscribeFitbitEvents` rejects as soon as one of
the three recognized tokens is missing from the granted scope. -/
theorem subscribe_gate_rejects (env : Deps) (d : UserAuthData) (g : FitbitAuthData)
    (sc : String) (hg : d.fitbit = some g) (hsc : g.scope = some sc)
    (h1 : (splitSpace sc).contains "rwei" = false) :
    UserAuthDataService.subscribeFitbitEvents env d =
      (.error (.validation scopeErrMsg (some scopeErrDetail)), []) := by
  simp only [UserAuthDataService.subscribeFitbitEvents, hg, hsc, h1,
    Bool.not_false, Bool.true_or, if_true]

/-- C7: RequestSync fails with the missing-credential rejection and
issues no sync call when the record is absent or lacks the provider
credential; with a linked credential it triggers a single sync with
`max_attempts = 1` and returns that sync's result — success or
failure — directly. -/
theorem C7_request_sync_gate (env : Deps) (store : CredentialStore) (uid : String) :
    (findOneByUserId store (some uid) = none →
       UserAuthDataService.syncFitbitUserData env store uid =
         (.error (.validation syncMissingMsg none), [])) ∧
    (∀ a, findOneByUserId store (some uid) = some a → a.fitbit = none →
       UserAuthDataService.syncFitbitUserData env store uid =
         (.error (.validation syncMissingMsg none), [])) ∧
    (∀ a f ds, findOneByUserId store (some uid) = some a → a.fitbit = some f →
       env.syncUserData f f.last_sync 1 (some uid) = .ok ds →
       UserAuthDataService.syncFitbitUserData env store uid =
         (.ok ds, [Call.syncUserData f f.last_sync 1 (some uid)])) ∧
    (∀ a f m, findOneByUserId store (some uid) = some a → a.fitbit = some f →
       env.syncUserData f f.last_sync 1 (some uid) = .error m →
       UserAuthDataService.syncFitbitUserData env store uid =
         (.error (.repo m), [Call.syncUserData f f.last_sync 1 (some uid)])) := by
  refine ⟨?_, ?_, ?_, ?_⟩
  · intro h
    simp only [UserAuthDataService.syncFitbitUserData, h]
  · intro a ha hf
    simp only [UserAuthDataService.syncFitbitUserData, ha, hf]
  · intro a f ds ha hf hs
    simp only [UserAuthDataService.syncFitbitUserData, ha, hf, hs]
  · intro a f m ha hf hs
    simp only [UserAuthDataService.syncFitbitUserData, ha, hf, hs]

/-- C7 witness: on the store holding the linked record of `u7`,
RequestSync triggers exactly the single-attempt sync for the stored
credential and returns its result. -/
theorem C7_request_sync_gate_witness :
    UserAuthDataService.syncFitbitUserData env1 store7 "u7" =
      (.ok {}, [Call.syncUserData fit7 (some "2019-01-01T00:00:00") 1 (some "u7")]) :=
  (C7_request_sync_gate env1 store7 "u7").2.2.1 rec7 fit7 {} rfl rfl rfl

/-- C8: with a well-formed id, RevokeCredential returns `false` with
zero revoke calls when no record is stored; with a stored record whose
credential carries an access token it revokes exactly that token,
returns `true` on success, and propagates a revocation failure. -/
theorem C8_revoke_paths (env : Deps) (store : CredentialStore) (uid : String)
    (hid : env.validObjectId uid = true) :
    (findOneByUserId store (some uid) = none →
       UserAuthDataService.revokeFitbitAccessToken env store uid = (.ok false, [])) ∧
    (∀ a f t b, findOneByUserId store (some uid) = some a → a.fitbit = some f →
       f.access_token = some t → env.revokeToken (some t) = .ok b →
       UserAuthDataService.revokeFitbitAccessToken env store uid =
         (.ok true, [.revokeToken (some t)])) ∧
    (∀ a f t m, findOneByUserId store (some uid) = some a → a.fitbit = some f →
       f.access_token = some t → env.revokeToken (some t) = .error m →
       UserAuthDataService.revokeFitbitAccessToken env store uid =
         (.error (.repo m), [.revokeToken (some t)])) := by
  refine ⟨?_, ?_, ?_⟩
  · intro h
    simp only [UserAuthDataService.revokeFitbitAccessToken, hid, if_true, h]
  · intro a f t b ha hf ht hr
    simp only [UserAuthDataService.revokeFitbitAccessToken, hid, if_true, ha, hf, ht, hr]
  · intro a f t m ha hf ht hr
    simp only [UserAuthDataService.revokeFitbitAccessToken, hid, if_true, ha, hf, ht, hr]

/-- C8 witness: revoking `u7` (linked, token `tokC`) calls the provider
revoke endpoint once with the stored token and returns `true`; revoking
the unlinked `nobody` returns `false` with zero revoke calls. -/
theorem C8_revoke_paths_witness :
    UserAuthDataService.revokeFitbitAccessToken env1 store7 "u7" =
      (.ok true, [.revokeToken (some "tokC")]) ∧
    UserAuthDataService.revokeFitbitAccessToken env1 store7 "nobody" = (.ok false, []) :=
  ⟨(C8_revoke_paths env1 store7 "u7" rfl).2.1 rec7 fit7 "tokC" true rfl rfl rfl rfl,
   (C8_revoke_paths env1 store7 "nobody" rfl).1 rfl⟩

/-- C9 (amended): after introspection, exactly the payload fields that
are present with truthy values (non-empty subject id and scope string,
non-zero expiry) overwrite the provider sub-structure, every other
field keeps its prior value, and the token type is unconditionally set
to bearer; the rest of the record is untouched. -/
theorem C9_truthy_fields_overwrite (env : Deps) (item r : UserAuthData)
    (f : FitbitAuthData) (p : TokenPayload) (l : List Call)
    (hf : item.fitbit = some f)
    (hp : env.getTokenPayload f.access_token = .ok p)
    (hm : UserAuthDataService.manageFitbitAuthData env item = (.ok r, l)) :
    r.id = item.id ∧ r.user_id = item.user_id ∧
    ∃ g, r.fitbit = some g ∧
      g.token_type = some "Bearer" ∧
      g.access_token = f.access_token ∧
      g.refresh_token = f.refresh_token ∧
      g.status = f.status ∧
      g.last_sync = f.last_sync ∧
      g.user_id = (if truthyS p.sub then p.sub else f.user_id) ∧
      g.scope = (if truthyS p.scopes then p.scopes else f.scope) ∧
      g.expires_in = (if truthyN p.exp then p.exp else f.expires_in) := by
  simp only [UserAuthDataService.manageFitbitAuthData, hf, hp, Prod.mk.injEq,
    Except.ok.injEq] at hm
  obtain ⟨hr, -⟩ := hm
  subst hr
  obtain ⟨hb, ha, hrf, hst, hls, hu, hsc, he⟩ := mergePayload_fields f p
  exact ⟨rfl, rfl, mergePayload f p, rfl, hb, ha, hrf, hst, hls, hu, hsc, he⟩

/-- C9 witness: introspecting `item9` under `env1` (payload subject
`p1`, no scope, no expiry) overwrites the subject id, keeps the other
fields, and sets the bearer token type. -/
theorem C9_truthy_fields_overwrite_witness :
    r9w.id = item9.id ∧ r9w.user_id = item9.user_id ∧
    ∃ g, r9w.fitbit = some g ∧
      g.token_type = some "Bearer" ∧
      g.access_token = fit9.access_token ∧
      g.refresh_token = fit9.refresh_token ∧
      g.status = fit9.status ∧
      g.last_sync = fit9.last_sync ∧
      g.user_id = (if truthyS pay1.sub then pay1.sub else fit9.user_id) ∧
      g.scope = (if truthyS pay1.scopes then pay1.scopes else fit9.scope) ∧
      g.expires_in = (if truthyN pay1.exp then pay1.exp else fit9.expires_in) :=
  C9_truthy_fields_overwrite env1 item9 r9w fit9 pay1
    [.getTokenPayload (some "tokA")] rfl rfl rfl

/-- C10: in RevokeCredential the stored access token is read through an
unguarded non-null assertion: under the precondition that every stored
record carries a provider credential the resulting type error is
unreachable, but on a store holding a record without the provider
sub-structure the unguarded access is taken (no revoke call is made),
while RequestSync on the same store rejects the same user with its
explicit missing-credential check. -/
theorem C10_unguarded_token_access :
    (∀ env store uid,
       (∀ q ∈ store.records, ∃ g t, q.fitbit = some g ∧ g.access_token = some t) →
       (UserAuthDataService.revokeFitbitAccessToken env store uid).1 ≠
         .error .typeError) ∧
    UserAuthDataService.revokeFitbitAccessToken env1 store10 "u10" =
      (.error .typeError, []) ∧
    UserAuthDataService.syncFitbitUserData env1 store10 "u10" =
      (.error (.validation syncMissingMsg none), []) := by
  refine ⟨?_, rfl, rfl⟩
  intro env store uid hpre h
  cases hv : env.validObjectId uid with
  | false =>
    simp only [UserAuthDataService.revokeFitbitAccessToken, hv] at h
    exact ServiceError.noConfusion (Except.error.inj h)
  | true =>
    cases hfind : findOneByUserId store (some uid) with
    | none =>
      simp only [UserAuthDataService.revokeFitbitAccessToken, hv, hfind, if_true] at h
      exact Except.noConfusion h
    | some a =>
      have hfind2 : store.records.find? (fun q => decide (q.user_id = some uid)) = some a :=
        hfind
      have ha : a ∈ store.records := List.mem_of_find?_eq_some hfind2
      obtain ⟨g, t, hg, -⟩ := hpre a ha
      cases hr : env.revokeToken g.access_token with
      | error m =>
        simp only [UserAuthDataService.revokeFitbitAccessToken, hv, hfind, hg, hr,
          if_true] at h
        exact ServiceError.noConfusion (Except.error.inj h)
      | ok b =>
        simp only [UserAuthDataService.revokeFitbitAccessToken, hv, hfind, hg, hr,
          if_true] at h
        exact Except.noConfusion h

/-- C10 witness: on the store of fully linked records, revoking any id
never produces the unguarded-access type error. -/
theorem C10_unguarded_token_access_witness :
    (UserAuthDataService.revokeFitbitAccessToken env1 store7 "u7").1 ≠
      .error .typeError :=
  C10_unguarded_token_access.1 env1 store7 "u7"
    (fun q hq => by
      simp only [store7, rec7, List.mem_singleton] at hq
      exact ⟨fit7, "tokC", by rw [hq], rfl⟩)

/-- C2: a record whose granted scope (as merged by introspection)
contains none of the three recognized tokens fails with the
insufficient-scope rejection (not reclassified, since the fixed scope
message does not contain `rpc`), with zero subscription calls, zero
store writes and an unchanged store: the only collaborator call made is
the introspection itself. -/
theorem C2_no_recognized_scope_rejected (env : Deps) (store : CredentialStore)
    (item : UserAuthData) (f : FitbitAuthData) (p : TokenPayload) (sc : String)
    (hv : validateCreate item = .ok ())
    (hf : item.fitbit = some f)
    (hp : env.getTokenPayload f.access_token = .ok p)
    (hs : (mergePayload f p).scope = some sc)
    (h1 : (splitSpace sc).contains "rwei" = false)
    (h2 : (splitSpace sc).contains "ract" = false)
    (h3 : (splitSpace sc).contains "rsle" = false) :
    UserAuthDataService.add env store item =
      (.error (.validation scopeErrMsg (some scopeErrDetail)), store,
        [.getTokenPayload f.access_token]) ∧
    [Call.getTokenPayload f.access_token].filter isSubscribeCall = [] ∧
    [Call.getTokenPayload f.access_token].filter isWriteCall = [] := by
  have hsub := subscribe_gate_rejects env
    { item with fitbit := some { mergePayload f p with status := some "valid_token" } }
    { mergePayload f p with status := some "valid_token" } sc rfl hs h1
  have hrpc : containsRpc scopeErrMsg = false := by decide
  refine ⟨?_, rfl, rfl⟩
  simp only [UserAuthDataService.add, UserAuthDataService.addBody,
    UserAuthDataService.prepare, hv, UserAuthDataService.manageFitbitAuthData, hf, hp,
    hsub, errMessage, hrpc, List.append_nil, Bool.false_eq_true, if_false]

/-- C2 witness: linking `item2w` (granted scope `nutrition profile`)
under the happy-path collaborators fails with the insufficient-scope
rejection after the introspection call alone. -/
theorem C2_no_recognized_scope_rejected_witness :
    UserAuthDataService.add env1 store0 item2w =
      (.error (.validation scopeErrMsg (some scopeErrDetail)), store0,
        [.getTokenPayload (some "tokA")]) :=
  (C2_no_recognized_scope_rejected env1 store0 item2w fit2w pay1 "nutrition profile"
    rfl rfl rfl rfl rfl rfl rfl).1

theorem filter_false_nil {α : Type} (p : α → Bool) :
    ∀ l : List α, (∀ c ∈ l, p c = false) → l.filter p = [] := by
  intro l
  induction l with
  | nil => intro _; rfl
  | cons a t ih =>
    intro h
    simp only [List.filter_cons, h a (List.mem_cons_self a t), Bool.false_eq_true,
      if_false]
    exact ih fun c hc => h c (List.mem_cons_of_mem a hc)

theorem map_noop {α : Type} (f : α → α) :
    ∀ l : List α, (∀ c ∈ l, f c = c) → l.map f = l := by
  intro l
  induction l with
  | nil => intro _; rfl
  | cons a t ih =>
    intro h
    simp only [List.map_cons, h a (List.mem_cons_self a t),
      ih fun c hc => h c (List.mem_cons_of_mem a hc)]

theorem find?_append_singleton {α : Type} (p : α → Bool) (a : α) :
    ∀ l : List α, (∀ c ∈ l, p c = false) → p a = true →
      (l ++ [a]).find? p = some a := by
  intro l
  induction l with
  | nil => intro _ ha; simp [List.find?_cons, ha]
  | cons x t ih =>
    intro h ha
    rw [List.cons_append]
    rw [List.find?_cons_of_neg _ (by simp [h x (List.mem_cons_self x t)])]
    exact ih (fun c hc => h c (List.mem_cons_of_mem x hc)) ha

theorem subscribeSleep_trace (env : Deps) (f : FitbitAuthData) (scopes : List String) :
    ∀ c ∈ (UserAuthDataService.subscribeSleep env f scopes).2, isLinkCall c = true := by
  intro c hc
  unfold UserAuthDataService.subscribeSleep at hc
  cases hra : scopes.contains "rsle" with
  | false => simp only [hra] at hc; simp at hc
  | true =>
    simp only [hra] at hc
    cases hs : env.subscribeUserEvent f "sleep" "SLEEP" with
    | error m => simp only [hs] at hc; simp at hc; subst hc; rfl
    | ok u => simp only [hs] at hc; simp at hc; subst hc; rfl

theorem subscribeActivities_trace (env : Deps) (f : FitbitAuthData) (scopes : List String) :
    ∀ c ∈ (UserAuthDataService.subscribeActivities env f scopes).2, isLinkCall c = true := by
  intro c hc
  unfold UserAuthDataService.subscribeActivities at hc
  cases hra : scopes.contains "ract" with
  | false =>
    simp only [hra] at hc
    exact subscribeSleep_trace env f scopes c hc
  | true =>
    simp only [hra] at hc
    cases hs : env.subscribeUserEvent f "activities" "ACTIVITIES" with
    | error m => simp only [hs] at hc; simp at hc; subst hc; rfl
    | ok u =>
      simp only [hs] at hc
      rcases hsl : UserAuthDataService.subscribeSleep env f scopes with ⟨r, l⟩
      simp only [hsl] at hc
      rcases List.mem_cons.mp hc with h | h
      · subst h; rfl
      · exact subscribeSleep_trace env f scopes c (by rw [hsl]; exact h)

theorem subscribeBody_trace (env : Deps) (f : FitbitAuthData) (scopes : List String) :
    ∀ c ∈ (UserAuthDataService.subscribeBody env f scopes).2, isLinkCall c = true := by
  intro c hc
  unfold UserAuthDataService.subscribeBody at hc
  cases hra : scopes.contains "rwei" with
  | false =>
    simp only [hra] at hc
    exact subscribeActivities_trace env f scopes c hc
  | true =>
    simp only [hra] at hc
    cases hs : env.subscribeUserEvent f "body" "BODY" with
    | error m => simp only [hs] at hc; simp at hc; subst hc; rfl
    | ok u =>
      simp only [hs] at hc
      rcases hsl : UserAuthDataService.subscribeActivities env f scopes with ⟨r, l⟩
      simp only [hsl] at hc
      rcases List.mem_cons.mp hc with h | h
      · subst h; rfl
      · exact subscribeActivities_trace env f scopes c (by rw [hsl]; exact h)

theorem subscribeFitbitEvents_trace (env : Deps) (d : UserAuthData) :
    ∀ c ∈ (UserAuthDataService.subscribeFitbitEvents env d).2, isLinkCall c = true := by
  intro c hc
  unfold UserAuthDataService.subscribeFitbitEvents at hc
  cases hd : d.fitbit with
  | none => simp only [hd] at hc; simp at hc
  | some f =>
    simp only [hd] at hc
    cases hsc : f.scope with
    | none => simp only [hsc] at hc; simp at hc
    | some sc =>
      simp only [hsc] at hc
      cases hg : (!((splitSpace sc).contains "rwei") ||
          !((splitSpace sc).contains "ract") || !((splitSpace sc).contains "rsle")) with
      | true => rw [if_pos hg] at hc; simp at hc
      | false =>
        simp only [hg, Bool.false_eq_true, if_false] at hc
        exact subscribeBody_trace env f (splitSpace sc) c hc

theorem manage_trace (env : Deps) (d : UserAuthData) :
    ∀ c ∈ (UserAuthDataService.manageFitbitAuthData env d).2, isLinkCall c = true := by
  intro c hc
  unfold UserAuthDataService.manageFitbitAuthData at hc
  cases hd : d.fitbit with
  | none => simp only [hd] at hc; simp at hc
  | some f =>
    simp only [hd] at hc
    cases hp : env.getTokenPayload f.access_token with
    | error m => simp only [hp] at hc; simp at hc; subst hc; rfl
    | ok p => simp only [hp] at hc; simp at hc; subst hc; rfl

theorem prepare_trace (env : Deps) (item : UserAuthData) :
    ∀ c ∈ (UserAuthDataService.prepare env item).2, isLinkCall c = true := by
  intro c hc
  unfold UserAuthDataService.prepare at hc
  cases hv : validateCreate item with
  | error e => simp only [hv] at hc; simp at hc
  | ok u =>
    simp only [hv] at hc
    rcases hm : UserAuthDataService.manageFitbitAuthData env item with ⟨rm, lm⟩
    simp only [hm] at hc
    cases rm with
    | error e =>
      exact manage_trace env item c (by rw [hm]; exact hc)
    | ok newItem =>
      cases hf : newItem.fitbit with
      | none =>
        simp only [hf] at hc
        exact manage_trace env item c (by rw [hm]; exact hc)
      | some f =>
        simp only [hf] at hc
        rcases hs : UserAuthDataService.subscribeFitbitEvents env
          { newItem with fitbit := some { f with status := some "valid_token" } } with ⟨rs, ls⟩
        simp only [hs] at hc
        cases rs <;>
        · simp only [List.mem_append] at hc
          rcases hc with h | h
          · exact manage_trace env item c (by rw [hm]; exact h)
          · exact subscribeFitbitEvents_trace env _ c (by rw [hs]; exact h)

theorem persist_trace (env : Deps) (store : CredentialStore) (ni : UserAuthData) :
    ∀ c ∈ (UserAuthDataService.persist env store ni).2.2, isLinkCall c = true := by
  intro c hc
  unfold UserAuthDataService.persist at hc
  cases hcu : env.checkUserExists ni.user_id with
  | error m => simp only [hcu] at hc; simp at hc; subst hc; rfl
  | ok b =>
    simp only [hcu] at hc
    cases b with
    | false => simp only [Bool.not_false, if_true] at hc; simp at hc; subst hc; rfl
    | true =>
      simp only [Bool.not_true, Bool.false_eq_true, if_false] at hc
      cases hfind : findOneByUserId store ni.user_id with
      | some old =>
        simp only [hfind] at hc
        rcases List.mem_cons.mp hc with h | h
        · subst h; rfl
        · simp at h; subst h; rfl
      | none =>
        simp only [hfind] at hc
        rcases List.mem_cons.mp hc with h | h
        · subst h; rfl
        · simp at h; subst h; rfl

theorem addBody_trace (env : Deps) (store : CredentialStore) (item : UserAuthData) :
    ∀ c ∈ (UserAuthDataService.addBody env store item).2.2, isLinkCall c = true := by
  intro c hc
  unfold UserAuthDataService.addBody at hc
  rcases hp : UserAuthDataService.prepare env item with ⟨rp, lp⟩
  simp only [hp] at hc
  cases rp with
  | error e => exact prepare_trace env item c (by rw [hp]; exact hc)
  | ok ni =>
    rcases hpe : UserAuthDataService.persist env store ni with ⟨rpe, spe, lpe⟩
    simp only [hpe] at hc
    simp only [List.mem_append] at hc
    rcases hc with h | h
    · exact prepare_trace env item c (by rw [hp]; exact h)
    · exact persist_trace env store ni c (by rw [hpe]; exact h)

theorem add_trace_eq (env : Deps) (store : CredentialStore) (item : UserAuthData) :
    (UserAuthDataService.add env store item).2.2 =
      (UserAuthDataService.addBody env store item).2.2 := by
  unfold UserAuthDataService.add
  rcases hb : UserAuthDataService.addBody env store item with ⟨rb, sb, lb⟩
  cases rb with
  | error e =>
    show (if containsRpc (errMessage e) = true
        then (Except.error (ServiceError.eventBus busErrMsg busErrDetail), sb, lb)
        else (Except.error e, sb, lb)).2.2 = lb
    split <;> rfl
  | ok v => rfl

theorem add_trace (env : Deps) (store : CredentialStore) (item : UserAuthData) :
    ∀ c ∈ (UserAuthDataService.add env store item).2.2, isLinkCall c = true := by
  intro c hc
  rw [add_trace_eq] at hc
  exact addBody_trace env store item c hc

theorem link_trace_filters (l : List Call) (h : ∀ c ∈ l, isLinkCall c = true) :
    l.filter isTriggerSyncCall = [] ∧ l.filter isPublishCall = [] :=
  ⟨filter_false_nil _ l fun c hc => by
      have := h c hc; cases c <;> simp_all [isLinkCall, isTriggerSyncCall],
   filter_false_nil _ l fun c hc => by
      have := h c hc; cases c <;> simp_all [isLinkCall, isPublishCall]⟩

/-- C4 (amended): after a successful link, any `initSync` other than the
string `false` fires exactly one fire-and-forget sync trigger with
`max_attempts = 3` for the linked credential (and no `publishLastSync`);
`initSync = "false"` with a truthy (non-empty) `last_sync` on the result
calls `publishLastSync` exactly once with that timestamp and never
triggers a sync. -/
theorem C4_sync_branching (env : Deps) (store : CredentialStore) (data r : UserAuthData)
    (s' : CredentialStore) (l : List Call) (f : FitbitAuthData) (initSync : String)
    (h : UserAuthDataService.add env store data = (.ok r, s', l))
    (hf : r.fitbit = some f) :
    (initSync ≠ "false" →
       UserAuthDataService.addFitbitAuthData env store data initSync =
         (.ok r, s', l ++ [Call.syncUserData f f.last_sync 3 r.user_id]) ∧
       (l ++ [Call.syncUserData f f.last_sync 3 r.user_id]).filter isTriggerSyncCall =
         [Call.syncUserData f f.last_sync 3 r.user_id] ∧
       (l ++ [Call.syncUserData f f.last_sync 3 r.user_id]).filter isPublishCall = []) ∧
    (∀ ls, initSync = "false" → f.last_sync = some ls → ls ≠ "" →
       UserAuthDataService.addFitbitAuthData env store data initSync =
         (.ok r, s', l ++ [Call.publishLastSync r.user_id ls]) ∧
       (l ++ [Call.publishLastSync r.user_id ls]).filter isPublishCall =
         [Call.publishLastSync r.user_id ls] ∧
       (l ++ [Call.publishLastSync r.user_id ls]).filter isTriggerSyncCall = []) := by
  have hlink : ∀ c ∈ l, isLinkCall c = true := by
    have h0 := add_trace env store data
    rw [h] at h0
    exact h0
  obtain ⟨hts, hpb⟩ := link_trace_filters l hlink
  constructor
  · intro hne
    refine ⟨?_, ?_, ?_⟩
    · simp [UserAuthDataService.addFitbitAuthData, h, hf, hne]
    · rw [List.filter_append, hts]
      simp [isTriggerSyncCall]
    · rw [List.filter_append, hpb]
      simp [isPublishCall]
  · intro ls he hlse hne
    subst he
    refine ⟨?_, ?_, ?_⟩
    · simp [UserAuthDataService.addFitbitAuthData, h, hf, hlse, truthyS, hne]
    · rw [List.filter_append, hpb]
      simp [isPublishCall]
    · rw [List.filter_append, hts]
      simp [isTriggerSyncCall]

/-- C4 witness: linking `item4w` (stored `last_sync`
`2019-01-01T00:00:00`) with `initSync = "false"` publishes exactly that
timestamp, and with `initSync = "true"` fires the 3-attempt sync
trigger. -/
theorem C4_sync_branching_witness :
    UserAuthDataService.addFitbitAuthData env1 store0 item4w "false" =
      (.ok r4w, s4w,
        l4w ++ [Call.publishLastSync (some "5ca790f77aefffa37a17b605") "2019-01-01T00:00:00"]) ∧
    UserAuthDataService.addFitbitAuthData env1 store0 item4w "true" =
      (.ok r4w, s4w,
        l4w ++ [Call.syncUserData fit4w (some "2019-01-01T00:00:00") 3
          (some "5ca790f77aefffa37a17b605")]) :=
  ⟨((C4_sync_branching env1 store0 item4w r4w s4w l4w fit4w "false" rfl rfl).2
      "2019-01-01T00:00:00" rfl rfl (by decide)).1,
   ((C4_sync_branching env1 store0 item4w r4w s4w l4w fit4w "true" rfl rfl).1
      (by decide)).1⟩

theorem manage_ok_shape (env : Deps) (item r : UserAuthData) (l : List Call)
    (h : UserAuthDataService.manageFitbitAuthData env item = (.ok r, l)) :
    ∃ f p, item.fitbit = some f ∧ env.getTokenPayload f.access_token = .ok p ∧
      r = { item with fitbit := some (mergePayload f p) } ∧
      l = [Call.getTokenPayload f.access_token] := by
  unfold UserAuthDataService.manageFitbitAuthData at h
  cases hf : item.fitbit with
  | none => simp only [hf] at h; simp at h
  | some f =>
    simp only [hf] at h
    cases hp : env.getTokenPayload f.access_token with
    | error m => simp only [hp] at h; simp at h
    | ok p =>
      simp only [hp, Prod.mk.injEq, Except.ok.injEq] at h
      exact ⟨f, p, rfl, hp, h.1.symm, h.2.symm⟩

theorem prepare_ok_shape (env : Deps) (item ni : UserAuthData) (l : List Call)
    (h : UserAuthDataService.prepare env item = (.ok ni, l)) :
    ∃ f p, item.fitbit = some f ∧ env.getTokenPayload f.access_token = .ok p ∧
      ni = { item with
        fitbit := some { mergePayload f p with status := some "valid_token" } } := by
  unfold UserAuthDataService.prepare at h
  cases hv : validateCreate item with
  | error e => simp only [hv] at h; simp at h
  | ok u =>
    simp only [hv] at h
    rcases hm : UserAuthDataService.manageFitbitAuthData env item with ⟨rm, lm⟩
    simp only [hm] at h
    cases rm with
    | error e => exact Except.noConfusion (congrArg Prod.fst h)
    | ok newItem =>
      obtain ⟨f, p, hf, hp, hni, hlm⟩ := manage_ok_shape env item newItem lm hm
      subst hni
      replace h :
          (match UserAuthDataService.subscribeFitbitEvents env
              { item with
                fitbit := some { mergePayload f p with status := some "valid_token" } } with
            | (Except.error e, l2) =>
              ((Except.error e : Except ServiceError UserAuthData), lm ++ l2)
            | (Except.ok _, l2) =>
              (Except.ok
                ({ item with
                  fitbit := some { mergePayload f p with status := some "valid_token" } } :
                  UserAuthData), lm ++ l2)) = (Except.ok ni, l) := h
      rcases hs : UserAuthDataService.subscribeFitbitEvents env
          { item with
            fitbit := some { mergePayload f p with status := some "valid_token" } }
        with ⟨rs, ls⟩
      simp only [hs] at h
      cases rs with
      | error e => exact Except.noConfusion (congrArg Prod.fst h)
      | ok a =>
        replace h :
            ((Except.ok { item with
                fitbit := some { mergePayload f p with status := some "valid_token" } } :
              Except ServiceError UserAuthData), lm ++ ls) = (Except.ok ni, l) := h
        simp only [Prod.mk.injEq, Except.ok.injEq] at h
        exact ⟨f, p, hf, hp, h.1.symm⟩

theorem persist_ok_shape (env : Deps) (store : CredentialStore) (ni v : UserAuthData)
    (s2 : CredentialStore) (l2 : List Call)
    (h : UserAuthDataService.persist env store ni = (.ok v, s2, l2)) :
    (findOneByUserId store ni.user_id = none ∧
       v = { ni with id := some store.nextId } ∧
       s2 = { records := store.records ++ [v], nextId := store.nextId + 1 }) ∨
    (∃ old, findOneByUserId store ni.user_id = some old ∧
       v = { ni with id := old.id } ∧
       s2 = { store with records :=
         store.records.map (fun q => if decide (q.id = old.id) then v else q) }) := by
  unfold UserAuthDataService.persist at h
  cases hc : env.checkUserExists ni.user_id with
  | error m => simp only [hc] at h; simp at h
  | ok b =>
    simp only [hc] at h
    cases b with
    | false => simp at h
    | true =>
      simp only [Bool.not_true, Bool.false_eq_true, if_false] at h
      cases hfind : findOneByUserId store ni.user_id with
      | none =>
        simp only [hfind, Prod.mk.injEq, Except.ok.injEq] at h
        obtain ⟨h1, h2, -⟩ := h
        subst h1
        exact Or.inl ⟨rfl, rfl, h2.symm⟩
      | some old =>
        simp only [hfind, Prod.mk.injEq, Except.ok.injEq] at h
        obtain ⟨h1, h2, -⟩ := h
        subst h1
        exact Or.inr ⟨old, rfl, rfl, h2.symm⟩

theorem add_ok_shape (env : Deps) (store : CredentialStore) (item r : UserAuthData)
    (s' : CredentialStore) (l : List Call)
    (h : UserAuthDataService.add env store item = (.ok r, s', l)) :
    ∃ ni l1, UserAuthDataService.prepare env item = (.ok ni, l1) ∧
      ni.user_id = item.user_id ∧
      ((findOneByUserId store ni.user_id = none ∧
          r = { ni with id := some store.nextId } ∧
          s' = { records := store.records ++ [r], nextId := store.nextId + 1 }) ∨
       (∃ old, findOneByUserId store ni.user_id = some old ∧
          r = { ni with id := old.id } ∧
          s' = { store with records :=
            store.records.map (fun q => if decide (q.id = old.id) then r else q) })) := by
  unfold UserAuthDataService.add UserAuthDataService.addBody at h
  rcases hp : UserAuthDataService.prepare env item with ⟨rp, lp⟩
  simp only [hp] at h
  cases rp with
  | error e =>
    replace h :
        (if containsRpc (errMessage e) = true
          then ((Except.error (ServiceError.eventBus busErrMsg busErrDetail) :
            Except ServiceError UserAuthData), store, lp)
          else (Except.error e, store, lp)) = (Except.ok r, s', l) := h
    split at h <;> simp at h
  | ok ni =>
    rcases hpe : UserAuthDataService.persist env store ni with ⟨rpe, spe, lpe⟩
    simp only [hpe] at h
    cases rpe with
    | error e =>
      replace h :
          (if containsRpc (errMessage e) = true
            then ((Except.error (ServiceError.eventBus busErrMsg busErrDetail) :
              Except ServiceError UserAuthData), spe, lp ++ lpe)
            else (Except.error e, spe, lp ++ lpe)) = (Except.ok r, s', l) := h
      split at h <;> simp at h
    | ok v =>
      replace h : ((Except.ok v : Except ServiceError UserAuthData), spe, lp ++ lpe) =
          (Except.ok r, s', l) := h
      simp only [Prod.mk.injEq, Except.ok.injEq] at h
      obtain ⟨hv, hs, -⟩ := h
      subst hv
      subst hs
      obtain ⟨f, p, hf, hp2, hni⟩ := prepare_ok_shape env item ni lp hp
      exact ⟨ni, lp, rfl, by rw [hni], persist_ok_shape env store ni v spe lpe hpe⟩

/-- C5: linking twice with the same internal user id (second call with a
different access token) into a well-formed store holding no record for
that user leaves exactly one stored record, which is the second call's
result: its identity is the one created by the first call, and its
provider credential is exactly the second call's introspected credential
(same access token as the second request) with `valid_token` status. -/
theorem C5_upsert_single_record (env : Deps) (s0 s1 s2 : CredentialStore)
    (a1 a2 r1 r2 : UserAuthData) (l1 l2 : List Call) (uid : String)
    (f2 : FitbitAuthData)
    (hwf : ∀ q ∈ s0.records, ∀ n, q.id = some n → n < s0.nextId)
    (hnone : ∀ q ∈ s0.records, q.user_id ≠ some uid)
    (hu1 : a1.user_id = some uid) (hu2 : a2.user_id = some uid)
    (hf2 : a2.fitbit = some f2)
    (h1 : UserAuthDataService.add env s0 a1 = (.ok r1, s1, l1))
    (h2 : UserAuthDataService.add env s1 a2 = (.ok r2, s2, l2)) :
    s2.records.filter (fun q => decide (q.user_id = some uid)) = [r2] ∧
    r2.id = r1.id ∧ r2.user_id = some uid ∧
    ∃ p2, env.getTokenPayload f2.access_token = .ok p2 ∧
      r2.fitbit = some { mergePayload f2 p2 with status := some "valid_token" } ∧
      (mergePayload f2 p2).access_token = f2.access_token := by
  obtain ⟨ni1, lp1, hprep1, hniu1, hdisj1⟩ := add_ok_shape env s0 a1 r1 s1 l1 h1
  rw [hniu1, hu1] at hdisj1
  have hfind0 : findOneByUserId s0 (some uid) = none := by
    unfold findOneByUserId
    rw [List.find?_eq_none]
    intro q hq
    simp [hnone q hq]
  rcases hdisj1 with ⟨-, hr1, hs1⟩ | ⟨old, hold, -, -⟩
  swap
  · rw [hfind0] at hold
    exact Option.noConfusion hold
  obtain ⟨ni2, lp2, hprep2, hniu2, hdisj2⟩ := add_ok_shape env s1 a2 r2 s2 l2 h2
  rw [hniu2, hu2] at hdisj2
  have hr1u : r1.user_id = some uid := by rw [hr1]
  have hfind1 : findOneByUserId s1 (some uid) = some r1 := by
    rw [hs1]
    show (s0.records ++ [r1]).find? (fun q => decide (q.user_id = some uid)) = some r1
    exact find?_append_singleton _ r1 s0.records
      (fun q hq => by simp [hnone q hq]) (by simp [hr1u])
  rcases hdisj2 with ⟨habs, -, -⟩ | ⟨old2, hold2, hr2, hs2⟩
  · rw [hfind1] at habs
    exact Option.noConfusion habs
  have hold2r : old2 = r1 := by
    rw [hfind1] at hold2
    exact (Option.some.inj hold2).symm
  rw [hold2r] at hr2 hs2
  obtain ⟨f2w, p2, hf2w, hp2, hni2⟩ := prepare_ok_shape env a2 ni2 lp2 hprep2
  have hf2eq : f2w = f2 := Option.some.inj (hf2w.symm.trans hf2)
  rw [hf2eq] at hp2 hni2
  have hr2u : r2.user_id = some uid := by rw [hr2]
  have hrecords : s2.records = s0.records ++ [r2] := by
    rw [hs2, hs1]
    show (s0.records ++ [r1]).map (fun q => if decide (q.id = r1.id) then r2 else q) =
      s0.records ++ [r2]
    rw [List.map_append]
    congr 1
    · apply map_noop
      intro q hq
      have hqid : ¬ (q.id = r1.id) := by
        rw [hr1]
        intro hqeq
        exact absurd (hwf q hq s0.nextId hqeq) (Nat.lt_irrefl s0.nextId)
      simp [hqid]
    · simp
  refine ⟨?_, ?_, hr2u, p2, hp2, ?_, (mergePayload_fields f2 p2).2.1⟩
  · rw [hrecords, List.filter_append,
      filter_false_nil _ s0.records (fun q hq => by simp [hnone q hq])]
    simp [hr2u]
  · rw [hr2]
  · rw [hr2]
    show ni2.fitbit = some { mergePayload f2 p2 with status := some "valid_token" }
    rw [hni2]

/-- C5 witness: linking `item5a` (token `tokA`) then `item5b` (token
`tokB`) for the same user into the empty store leaves exactly the single
record `r5b`, with the identity created by the first link and the second
call's access token. -/
theorem C5_upsert_single_record_witness :
    s5b.records.filter
      (fun q => decide (q.user_id = some "5ca790f77aefffa37a17b605")) = [r5b] ∧
    r5b.id = r5a.id ∧ r5b.user_id = some "5ca790f77aefffa37a17b605" ∧
    ∃ p2, env1.getTokenPayload fit5b.access_token = .ok p2 ∧
      r5b.fitbit = some { mergePayload fit5b p2 with status := some "valid_token" } ∧
      (mergePayload fit5b p2).access_token = fit5b.access_token :=
  C5_upsert_single_record env1 store0 s5a s5b item5a item5b r5a r5b l5a l5b
    "5ca790f77aefffa37a17b605" fit5b
    (fun q hq => absurd hq (List.not_mem_nil q))
    (fun q hq => absurd hq (List.not_mem_nil q))
    rfl rfl rfl rfl rfl
